import Mathlib

/-!
Shallow embedding of the horizon configuration-resolution slice
(main package: configOption, init, initApp, initConfig and its helpers) and of
resourceadapter.PopulateAccountThresholds, with theorems checking the
specification's claims against it.

Conventions: Go strings are String, Go int is Int (64-bit overflow is not
exercised by any option here), Go uint values are Nat produced by an explicit
mod-2^64 conversion at each conversion site, time.Duration is an Int count of
nanoseconds, nil-able pointers are Option.  Every way the process dies on the
resolution path — a stdLog.Fatal, an os.Exit(1), or a runtime panic from a
failed interface type assertion — is a FatalReason constructor carrying the
data the message interpolates, so a run of the pipeline is an
Except FatalReason value.
-/

set_option maxHeartbeats 1000000

deriving instance DecidableEq for Except

namespace StellarGo

/-- Association-list lookup modelling the string-keyed stores (command-line flag
values, environment, env bindings, registered defaults) that viper consults. -/
def lookupStr : List (String × String) → String → Option String
  | [], _ => none
  | (k', s) :: rest, k => if k' = k then some s else lookupStr rest k

/-- Digit-accumulation loop of a base-10 natural-number parse. -/
def digitsVal : List Char → Nat → Option Nat
  | [], acc => some acc
  | ch :: rest, acc =>
      if ch.isDigit then digitsVal rest (acc * 10 + (ch.toNat - 48)) else none

/-- Base-10 natural-number parse of a non-empty digit string. -/
def parseGoNat (cs : List Char) : Option Nat :=
  if cs.isEmpty then none else digitsVal cs 0

/-- Signed base-10 integer parse modelling what viper.GetInt does to a raw
value (cast.ToInt over strconv.ParseInt): an optional sign followed by decimal
digits; any failure is swallowed by the cast layer and yields 0. -/
def parseGoInt (s : String) : Int :=
  match s.toList with
  | '-' :: rest => (match parseGoNat rest with | some n => -(n : Int) | none => 0)
  | '+' :: rest => (match parseGoNat rest with | some n => (n : Int) | none => 0)
  | cs => (match parseGoNat cs with | some n => (n : Int) | none => 0)

/-- Boolean parse modelling viper.GetBool (cast.ToBool): the accepted true
spellings; everything else, including a parse failure, is false. -/
def parseGoBool (s : String) : Bool :=
  s == "1" || s == "t" || s == "T" || s == "true" || s == "TRUE" || s == "True"

/-- Go conversion uint(i) on a 64-bit platform: truncation modulo 2^64.  The
conversion does not range-check; this is the exact semantics of the casts
uint(viper.GetInt(...)) appearing in setSimpleValue and in the assembly. -/
def goUInt (i : Int) : Nat := (i % ((2 : Int) ^ 64)).toNat

/-- The slice of viper state this program uses: flag values bound by
BindPFlags, the process environment, the key-to-variable pairs registered by
BindEnv, and the registered defaults (flag defaults and SetDefault calls). -/
structure ViperState where
  flags : List (String × String)
  env : List (String × String)
  bindings : List (String × String)
  defaults : List (String × String)

/-- viper lookup order for this configuration: an explicitly set flag wins,
then a bound environment variable that is present, then the default. -/
def ViperState.getRaw (v : ViperState) (key : String) : Option String :=
  match lookupStr v.flags key with
  | some s => some s
  | none =>
      match lookupStr v.bindings key with
      | some ev =>
          match lookupStr v.env ev with
          | some s => some s
          | none => lookupStr v.defaults key
      | none => lookupStr v.defaults key

/-- viper.GetString: the raw value, or the empty string when nothing is set. -/
def ViperState.getString (v : ViperState) (key : String) : String :=
  (v.getRaw key).getD ""

/-- viper.GetInt: signed base-10 parse of the raw value, 0 on failure. -/
def ViperState.getInt (v : ViperState) (key : String) : Int :=
  parseGoInt (v.getString key)

/-- viper.GetBool. -/
def ViperState.getBool (v : ViperState) (key : String) : Bool :=
  parseGoBool (v.getString key)

/-- Modelled from the spec: strutils.KebabToConstantCase (the strutils package
is outside this slice) — the deterministic kebab-case to upper-snake-case
conversion: dashes become underscores and letters are upper-cased. -/
def kebabToConstantCase (s : String) : String :=
  String.mk (s.toList.map (fun ch => if ch = '-' then '_' else ch.toUpper))

/-- The logrus severity enumeration (external library); its zero value is
panic. -/
inductive LogLevel where
  | panic
  | fatal
  | error
  | warn
  | info
  | debug
  deriving DecidableEq

/-- Modelled from the spec: logrus.ParseLevel (external library) parses a raw
string against the fixed severity enumeration, accepting both spellings of the
warning level; anything else fails. -/
def parseLogLevel : String → Option LogLevel
  | "panic" => some .panic
  | "fatal" => some .fatal
  | "error" => some .error
  | "warn" => some .warn
  | "warning" => some .warn
  | "info" => some .info
  | "debug" => some .debug
  | _ => none

/-- Stand-in for a parsed url.URL value.  URL parsing itself is an external
collaborator (net/url), threaded through the model as the function
World.parseURL; the payload records which raw string parsed. -/
structure Url where
  raw : String
  deriving DecidableEq

/-- A throttled rate (external library); the payload is the constructor
argument of throttled.PerHour. -/
structure Rate where
  eventsPerHour : Int
  deriving DecidableEq

/-- throttled.RateQuota: a rate paired with a burst allowance. -/
structure RateQuota where
  maxRate : Rate
  maxBurst : Int
  deriving DecidableEq

/-- Modelled from the spec: throttled.PerHour n (external library) builds the
rate of n events per hour stored in a rate-quota policy. -/
def PerHour (n : Int) : Rate := ⟨n⟩

/-- Modelled from the spec: the default network passphrase constant of the
external network package; a fixed non-empty string (so the required
network-passphrase option always has a non-empty default). -/
def TestNetworkPassphrase : String := "Test SDF Network ; September 2015"

/-- The destination aggregate horizon.Config (declared outside this slice);
the fields are exactly those the option table and the assembler write.  Field
defaults are the Go zero values, so an empty instance is the package-level
zero-valued variable c. -/
structure HorizonConfig where
  databaseURL : String := ""
  stellarCoreDatabaseURL : String := ""
  stellarCoreURL : String := ""
  port : Int := 0
  maxDBConnections : Int := 0
  sseUpdateFrequency : Int := 0
  connectionTimeout : Int := 0
  rateLimit : Option RateQuota := none
  rateLimitRedisKey : String := ""
  redisURL : String := ""
  friendbotURL : Option Url := none
  logLevel : LogLevel := .panic
  logFile : String := ""
  maxPathLength : Nat := 0
  networkPassphrase : String := ""
  sentryDSN : String := ""
  logglyToken : String := ""
  logglyTag : String := ""
  tlsCert : String := ""
  tlsKey : String := ""
  ingest : Bool := false
  historyRetentionCount : Nat := 0
  staleThreshold : Nat := 0
  skipCursorUpdate : Bool := false
  enableAssetStats : Bool := false
  deriving DecidableEq

/-- Which field of horizon.Config a descriptor's configKey pointer targets. -/
inductive ConfigKey where
  | databaseURL
  | stellarCoreDatabaseURL
  | stellarCoreURL
  | port
  | maxDBConnections
  | sseUpdateFrequency
  | connectionTimeout
  | rateLimit
  | rateLimitRedisKey
  | redisURL
  | friendbotURL
  | logLevel
  | logFile
  | maxPathLength
  | networkPassphrase
  | sentryDSN
  | logglyToken
  | logglyTag
  | tlsCert
  | tlsKey
  | ingest
  | historyRetentionCount
  | staleThreshold
  | skipCursorUpdate
  | enableAssetStats
  deriving DecidableEq

/-- The typed default of a descriptor; the tag doubles as the flag kind, since
setFlag and setSimpleValue both dispatch on the dynamic type of flagDefault. -/
inductive FlagDefault where
  | str (s : String)
  | int (i : Int)
  | uint (n : Nat)
  | boolean (b : Bool)
  deriving DecidableEq

/-- The six custom setValue functions a descriptor may name. -/
inductive CustomSetter where
  | setDuration
  | setURL
  | setLogLevel
  | setLogFile
  | setRateLimit
  | incrementTLSFlag
  deriving DecidableEq

/-- configOption: one row of the option-descriptor table.  The usage text is
omitted (documentation only) and the flagType field is subsumed by the tag of
flagDefault, which is what the source itself dispatches on. -/
structure ConfigOption where
  name : String
  envVar : String := ""
  flagDefault : FlagDefault
  required : Bool := false
  customSetValue : Option CustomSetter := none
  configKey : Option ConfigKey := none
  deriving DecidableEq

/-- String rendering of a registered default, as viper's cast layer sees it. -/
def FlagDefault.render : FlagDefault → String
  | .str s => s
  | .int i => toString i
  | .uint n => toString n
  | .boolean b => if b then "true" else "false"

/-- The option-descriptor table configOpts, row for row. -/
def configOpts : List ConfigOption := [
  { name := "db-url", envVar := "DATABASE_URL", configKey := some .databaseURL,
    flagDefault := .str "", required := true },
  { name := "stellar-core-db-url", envVar := "STELLAR_CORE_DATABASE_URL",
    configKey := some .stellarCoreDatabaseURL, flagDefault := .str "", required := true },
  { name := "stellar-core-url", configKey := some .stellarCoreURL,
    flagDefault := .str "", required := true },
  { name := "port", configKey := some .port, flagDefault := .int 8000 },
  { name := "max-db-connections", configKey := some .maxDBConnections,
    flagDefault := .int 20 },
  { name := "sse-update-frequency", configKey := some .sseUpdateFrequency,
    flagDefault := .int 5, customSetValue := some .setDuration },
  { name := "connection-timeout", configKey := some .connectionTimeout,
    flagDefault := .int 55, customSetValue := some .setDuration },
  { name := "per-hour-rate-limit", configKey := some .rateLimit,
    flagDefault := .int 3600, customSetValue := some .setRateLimit },
  { name := "rate-limit-redis-key", configKey := some .rateLimitRedisKey,
    flagDefault := .str "" },
  { name := "redis-url", configKey := some .redisURL, flagDefault := .str "" },
  { name := "friendbot-url", configKey := some .friendbotURL,
    flagDefault := .str "", customSetValue := some .setURL },
  { name := "log-level", configKey := some .logLevel,
    flagDefault := .str "info", customSetValue := some .setLogLevel },
  { name := "log-file", configKey := some .logFile,
    flagDefault := .str "", customSetValue := some .setLogFile },
  { name := "max-path-length", configKey := some .maxPathLength,
    flagDefault := .uint 4 },
  { name := "network-passphrase", configKey := some .networkPassphrase,
    flagDefault := .str TestNetworkPassphrase, required := true },
  { name := "sentry-dsn", configKey := some .sentryDSN, flagDefault := .str "" },
  { name := "loggly-token", configKey := some .logglyToken, flagDefault := .str "" },
  { name := "loggly-tag", configKey := some .logglyTag, flagDefault := .str "horizon" },
  { name := "tls-cert", configKey := some .tlsCert,
    flagDefault := .str "", customSetValue := some .incrementTLSFlag },
  { name := "tls-key", configKey := some .tlsKey,
    flagDefault := .str "", customSetValue := some .incrementTLSFlag },
  { name := "ingest", configKey := some .ingest, flagDefault := .boolean false },
  { name := "history-retention-count", configKey := some .historyRetentionCount,
    flagDefault := .uint 0 },
  { name := "history-stale-threshold", configKey := some .staleThreshold,
    flagDefault := .uint 0 },
  { name := "skip-cursor-update", configKey := some .skipCursorUpdate,
    flagDefault := .boolean false },
  { name := "enable-asset-stats", configKey := some .enableAssetStats,
    flagDefault := .boolean false }
]

/-- The per-descriptor body of the loop in init(): only when envVar is empty is
it replaced by the derived constant-case name.  (The accompanying BindEnv call
sits inside the same if, see envBindings.) -/
def bindOption (co : ConfigOption) : ConfigOption :=
  if co.envVar = "" then { co with envVar := kebabToConstantCase co.name } else co

/-- The descriptor table as initConfig sees it, after init() ran: every row
carries a non-empty envVar. -/
def boundOpts : List ConfigOption := configOpts.map bindOption

/-- The BindEnv registrations init() actually performs: the call is inside the
branch taken only when envVar was empty, so rows with an explicitly given
envVar are never bound to the environment. -/
def envBindings : List (String × String) :=
  configOpts.filterMap (fun co =>
    if co.envVar = "" then some (co.name, kebabToConstantCase co.name) else none)

/-- The defaults registered for every flag (setFlag plus BindPFlags; the two
SetDefault calls duplicate the port and history-retention-count values). -/
def flagDefaults : List (String × String) :=
  configOpts.map (fun co => (co.name, co.flagDefault.render))

/-- The viper state produced by init() for given command-line flag values and
process environment. -/
def initViper (flags env : List (String × String)) : ViperState :=
  { flags := flags, env := env, bindings := envBindings, defaults := flagDefaults }

/-- The externals one run of initConfig consumes: flag and environment input,
the two migration queries, url.Parse, and whether os.OpenFile succeeds. -/
structure World where
  flags : List (String × String)
  env : List (String × String)
  migrationsUp : List String
  migrationsDown : Nat
  parseURL : String → Option Url
  openFileOK : String → Bool

/-- The viper state a run over the given world reads. -/
def viperOf (w : World) : ViperState := initViper w.flags w.env

/-- One constructor per distinct fatal exit on the resolution path, carrying
the data its message interpolates.  diedHere is the unconditional
stdLog.Fatal("Died here") ending initConfig.  urlAssertPanic is not a
stdLog.Fatal but the runtime interface-conversion panic raised by setURL's
write `*(co.configKey.(*url.URL)) = *urlType`: the only descriptor using
setURL is friendbot-url, whose configKey is &c.FriendbotURL of type
**url.URL (Config.FriendbotURL must be *url.URL, since the assembly assigns
the local *url.URL variable friendbotURL to that field), so the assertion to
*url.URL fails — and the process panics — on every non-empty input whose
parse succeeds. -/
inductive FatalReason where
  | requiredBlank (name envVar : String)
  | migrateUpNeeded (count : Nat)
  | migrateDownNeeded (target : Nat)
  | badLogLevel (raw : String)
  | logFileFailed
  | tlsCounterInvalid
  | tlsKeyMissing
  | tlsCertMissing
  | badURL (raw : String)
  | urlAssertPanic
  | diedHere
  deriving DecidableEq

/-- The mutable state threaded through the setValue loop: the package-level
struct c, the tlsProvided counter, and the process-wide default logger's level
and output file. -/
structure RunState where
  c : HorizonConfig := {}
  tlsProvided : Nat := 0
  loggerLevel : LogLevel := .info
  loggerFile : Option String := none
  deriving DecidableEq

/-- Write through a string-typed configKey.  The catch-all arm corresponds to
the Go interface type-assertion panicking on a mistyped key, which cannot
happen for the rows of the concrete table. -/
def writeString (k : Option ConfigKey) (s : String) (c : HorizonConfig) : HorizonConfig :=
  match k with
  | some .databaseURL => { c with databaseURL := s }
  | some .stellarCoreDatabaseURL => { c with stellarCoreDatabaseURL := s }
  | some .stellarCoreURL => { c with stellarCoreURL := s }
  | some .rateLimitRedisKey => { c with rateLimitRedisKey := s }
  | some .redisURL => { c with redisURL := s }
  | some .logFile => { c with logFile := s }
  | some .networkPassphrase => { c with networkPassphrase := s }
  | some .sentryDSN => { c with sentryDSN := s }
  | some .logglyToken => { c with logglyToken := s }
  | some .logglyTag => { c with logglyTag := s }
  | some .tlsCert => { c with tlsCert := s }
  | some .tlsKey => { c with tlsKey := s }
  | _ => c

/-- Write through an int-typed configKey. -/
def writeInt (k : Option ConfigKey) (i : Int) (c : HorizonConfig) : HorizonConfig :=
  match k with
  | some .port => { c with port := i }
  | some .maxDBConnections => { c with maxDBConnections := i }
  | _ => c

/-- Write through a bool-typed configKey. -/
def writeBool (k : Option ConfigKey) (b : Bool) (c : HorizonConfig) : HorizonConfig :=
  match k with
  | some .ingest => { c with ingest := b }
  | some .skipCursorUpdate => { c with skipCursorUpdate := b }
  | some .enableAssetStats => { c with enableAssetStats := b }
  | _ => c

/-- Write through a uint-typed configKey. -/
def writeUInt (k : Option ConfigKey) (n : Nat) (c : HorizonConfig) : HorizonConfig :=
  match k with
  | some .maxPathLength => { c with maxPathLength := n }
  | some .historyRetentionCount => { c with historyRetentionCount := n }
  | some .staleThreshold => { c with staleThreshold := n }
  | _ => c

/-- Write through a time.Duration-typed configKey. -/
def writeDuration (k : Option ConfigKey) (d : Int) (c : HorizonConfig) : HorizonConfig :=
  match k with
  | some .sseUpdateFrequency => { c with sseUpdateFrequency := d }
  | some .connectionTimeout => { c with connectionTimeout := d }
  | _ => c

/-- Write through the logrus.Level-typed configKey. -/
def writeLogLevelKey (k : Option ConfigKey) (ll : LogLevel) (c : HorizonConfig) : HorizonConfig :=
  match k with
  | some .logLevel => { c with logLevel := ll }
  | _ => c

/-- Write through the rate-quota-pointer-typed configKey. -/
def writeRateQuotaKey (k : Option ConfigKey) (q : Option RateQuota) (c : HorizonConfig) : HorizonConfig :=
  match k with
  | some .rateLimit => { c with rateLimit := q }
  | _ => c

/-- configOption.setSimpleValue: dispatch on the dynamic type of flagDefault,
reading the viper value with the matching getter.  The uint arm is the
unchecked conversion uint(viper.GetInt(name)). -/
def setSimpleValue (v : ViperState) (co : ConfigOption) (c : HorizonConfig) : HorizonConfig :=
  match co.flagDefault with
  | .str _ => writeString co.configKey (v.getString co.name) c
  | .int _ => writeInt co.configKey (v.getInt co.name) c
  | .boolean _ => writeBool co.configKey (v.getBool co.name) c
  | .uint _ => writeUInt co.configKey (goUInt (v.getInt co.name)) c

/-- configOption.setValue together with the bodies of the six custom setters,
as one step over the running state. -/
def applyOption (w : World) (co : ConfigOption) (s : RunState) : Except FatalReason RunState :=
  let v := viperOf w
  match co.customSetValue with
  | some .setDuration =>
      .ok { s with c := writeDuration co.configKey (v.getInt co.name * 1000000000) s.c }
  | some .setURL =>
      let raw := v.getString co.name
      if raw = "" then .ok s
      else
        match w.parseURL raw with
        | none => .error (.badURL raw)
        | some _ => .error .urlAssertPanic
  | some .setLogLevel =>
      match parseLogLevel (v.getString co.name) with
      | none => .error (.badLogLevel (v.getString co.name))
      | some ll => .ok { s with loggerLevel := ll, c := writeLogLevelKey co.configKey ll s.c }
  | some .setLogFile =>
      let lf := v.getString "log-file"
      if lf = "" then .ok s
      else if w.openFileOK lf then
        .ok { s with loggerFile := some lf, c := writeString co.configKey lf s.c }
      else .error .logFileFailed
  | some .setRateLimit =>
      let n := v.getInt co.name
      if n = 0 then .ok s
      else
        let q : Option RateQuota := some { maxRate := PerHour n, maxBurst := 100 }
        .ok { s with c := writeRateQuotaKey co.configKey q s.c }
  | some .incrementTLSFlag =>
      let t := v.getString co.name
      if t = "" then .ok s
      else .ok { s with tlsProvided := s.tlsProvided + 1, c := writeString co.configKey t s.c }
  | none =>
      match co.configKey with
      | none => .ok s
      | some _ => .ok { s with c := setSimpleValue v co s.c }

/-- The setValue loop of initConfig; the first fatal setter terminates it. -/
def runSetValues (w : World) : List ConfigOption → RunState → Except FatalReason RunState
  | [], s => .ok s
  | co :: rest, s =>
      match applyOption w co s with
      | .error r => .error r
      | .ok s' => runSetValues w rest s'

/-- configOption.require: fatal when a required option resolves to the empty
string, citing its flag name and its environment variable. -/
def requireCheck (v : ViperState) (co : ConfigOption) : Option FatalReason :=
  if co.required = true ∧ v.getString co.name = "" then
    some (.requiredBlank co.name co.envVar)
  else none

/-- The require loop at the top of initConfig; the first fatal row wins. -/
def requireAll (v : ViperState) : List ConfigOption → Option FatalReason
  | [] => none
  | co :: rest =>
      match requireCheck v co with
      | some r => some r
      | none => requireAll v rest

/-- The require loop applied to the bound table, as initConfig runs it. -/
def stageRequire (w : World) : Option FatalReason :=
  requireAll (viperOf w) boundOpts

/-- The schema-migration gate: the pending-up check runs first and exits; only
when it passes is the pending-down count queried and checked. -/
def stageGate (w : World) : Option FatalReason :=
  if 0 < w.migrationsUp.length then some (.migrateUpNeeded w.migrationsUp.length)
  else if 0 < w.migrationsDown then some (.migrateDownNeeded w.migrationsDown)
  else none

/-- validateTLS: fatal exactly when the counter is exactly 1; the message is
the generic one, it does not name the missing half. -/
def validateTLS (tlsProvided : Nat) : Option FatalReason :=
  if tlsProvided = 1 then some .tlsCounterInvalid else none

/-- The rate-limit computation at the bottom of initConfig (lines building the
local rateLimit variable): nil for 0, PerHour with burst 100 otherwise. -/
def computeRateLimit (perHourRateLimit : Int) : Option RateQuota :=
  if perHourRateLimit ≠ 0 then
    some { maxRate := PerHour perHourRateLimit, maxBurst := 100 }
  else none

/-- The final composite literal assigning the package-level config variable:
every field is read back from viper (not from c), except the locally computed
log level, log file, TLS strings, friendbot URL and rate limit. -/
def assembleConfig (v : ViperState) (ll : LogLevel) (lf cert key : String)
    (friendbotURL : Option Url) (rateLimit : Option RateQuota) : HorizonConfig :=
  { databaseURL := v.getString "db-url"
    stellarCoreDatabaseURL := v.getString "stellar-core-db-url"
    stellarCoreURL := v.getString "stellar-core-url"
    port := v.getInt "port"
    maxDBConnections := v.getInt "max-db-connections"
    sseUpdateFrequency := v.getInt "sse-update-frequency" * 1000000000
    connectionTimeout := v.getInt "connection-timeout" * 1000000000
    rateLimit := rateLimit
    rateLimitRedisKey := v.getString "rate-limit-redis-key"
    redisURL := v.getString "redis-url"
    friendbotURL := friendbotURL
    logLevel := ll
    logFile := lf
    maxPathLength := goUInt (v.getInt "max-path-length")
    networkPassphrase := v.getString "network-passphrase"
    sentryDSN := v.getString "sentry-dsn"
    logglyToken := v.getString "loggly-token"
    logglyTag := v.getString "loggly-tag"
    tlsCert := cert
    tlsKey := key
    ingest := v.getBool "ingest"
    historyRetentionCount := goUInt (v.getInt "history-retention-count")
    staleThreshold := goUInt (v.getInt "history-stale-threshold")
    skipCursorUpdate := v.getBool "skip-cursor-update"
    enableAssetStats := v.getBool "enable-asset-stats" }

/-- initConfig after the setValue loop: re-parse log-level, the counter-based
TLS check, the log-file reopen, the cert/key pairing switch (which names the
missing half), the friendbot re-parse, the rate-limit computation, and the
final assembly. -/
def stagePost (w : World) (s : RunState) : Except FatalReason HorizonConfig :=
  let v := viperOf w
  match parseLogLevel (v.getString "log-level") with
  | none => .error (.badLogLevel (v.getString "log-level"))
  | some ll =>
    match validateTLS s.tlsProvided with
    | some r => .error r
    | none =>
      let lf := v.getString "log-file"
      if lf ≠ "" ∧ ¬ w.openFileOK lf then .error .logFileFailed
      else
        let cert := v.getString "tls-cert"
        let key := v.getString "tls-key"
        if cert ≠ "" ∧ key = "" then .error .tlsKeyMissing
        else if cert = "" ∧ key ≠ "" then .error .tlsCertMissing
        else
          let fbs := v.getString "friendbot-url"
          if fbs = "" then
            .ok (assembleConfig v ll lf cert key none
                  (computeRateLimit (v.getInt "per-hour-rate-limit")))
          else
            match w.parseURL fbs with
            | none => .error (.badURL fbs)
            | some u =>
                .ok (assembleConfig v ll lf cert key (some u)
                      (computeRateLimit (v.getInt "per-hour-rate-limit")))

/-- initConfig up to and including the assembly of the config value, i.e.
everything except the final unconditional Fatal. -/
def pipelineCore (w : World) : Except FatalReason HorizonConfig :=
  match stageRequire w with
  | some r => .error r
  | none =>
    match stageGate w with
    | some r => .error r
    | none =>
      match runSetValues w boundOpts {} with
      | .error r => .error r
      | .ok s => stagePost w s

/-- initConfig as a whole.  The source function ends with the unconditional
stdLog.Fatal("Died here"), so even a run in which every check passes exits the
process instead of returning the assembled configuration. -/
def initConfig (w : World) : Except FatalReason HorizonConfig :=
  match pipelineCore w with
  | .error r => .error r
  | .ok _ => .error .diedHere

/-- A world in which every validation and the gate pass: the three required
options without defaults are supplied by flags, there are no pending
migrations, every URL parses, and every file opens. -/
def wGood : World :=
  { flags := [("db-url", "postgres://horizon"),
              ("stellar-core-db-url", "postgres://core"),
              ("stellar-core-url", "http://core")],
    env := [],
    migrationsUp := [],
    migrationsDown := 0,
    parseURL := fun s => some ⟨s⟩,
    openFileOK := fun _ => true }

/-- protocols/horizon AccountThresholds, the destination of the populate
function; the struct consists of exactly these three byte fields (bytes are
modelled as Nat). -/
structure AccountThresholds where
  lowThreshold : Nat
  medThreshold : Nat
  highThreshold : Nat
  deriving DecidableEq

/-- resourceadapter.PopulateAccountThresholds: copies elements 1, 2 and 3 of
the row's Thresholds array into the three destination fields.  Indexing a
too-short array panics in Go, which the model renders as none. -/
def PopulateAccountThresholds (dest : AccountThresholds) (thresholds : List Nat) :
    Option AccountThresholds :=
  match thresholds[1]?, thresholds[2]?, thresholds[3]? with
  | some t1, some t2, some t3 =>
      some { dest with lowThreshold := t1, medThreshold := t2, highThreshold := t3 }
  | _, _, _ => none

/-- Projection used to reason about the counter after the setValue loop. -/
def resTLS : Except FatalReason RunState → Nat
  | .ok s => s.tlsProvided
  | .error _ => 0

/-- Is this a fatal produced by the require loop? -/
def FatalReason.fromRequire : FatalReason → Bool
  | .requiredBlank _ _ => true
  | _ => false

/-- Is this a fatal produced by the migration gate? -/
def FatalReason.fromGate : FatalReason → Bool
  | .migrateUpNeeded _ => true
  | .migrateDownNeeded _ => true
  | _ => false

/-- A world whose only difference from wGood is a blank required option
(stellar-core-url is neither set nor defaulted) while an up migration is also
pending: it separates the require loop from the migration gate. -/
def wOrderSwap : World :=
  { flags := [("stellar-core-db-url", "postgres://core"),
              ("stellar-core-url", "http://core")],
    env := [],
    migrationsUp := ["20180101000000-init.sql"],
    migrationsDown := 0,
    parseURL := fun s => some ⟨s⟩,
    openFileOK := fun _ => true }

/-- A world supplying db-url only through the DATABASE_URL environment
variable (the alias the table explicitly declares for it). -/
def wEnvDB : World :=
  { flags := [("stellar-core-db-url", "postgres://core"),
              ("stellar-core-url", "http://core")],
    env := [("DATABASE_URL", "postgres://horizon")],
    migrationsUp := [],
    migrationsDown := 0,
    parseURL := fun s => some ⟨s⟩,
    openFileOK := fun _ => true }

/-- wGood with a negative raw value for the unsigned max-path-length option. -/
def wNegPath : World := { wGood with flags := wGood.flags ++ [("max-path-length", "-1")] }

/-- wGood with a TLS certificate but no TLS key. -/
def wHalfTLS : World := { wGood with flags := wGood.flags ++ [("tls-cert", "cert.pem")] }

/-- wGood with both migration directions pending. -/
def wBothPending : World := { wGood with migrationsUp := ["m1", "m2"], migrationsDown := 3 }

/-- A world in which the required stellar-core-url option is blank. -/
def wBlankRequired : World :=
  { flags := [("db-url", "postgres://horizon"),
              ("stellar-core-db-url", "postgres://core")],
    env := [],
    migrationsUp := [],
    migrationsDown := 0,
    parseURL := fun s => some ⟨s⟩,
    openFileOK := fun _ => true }

/-- wGood with a friendbot redirect URL supplied. -/
def wFriendbot : World :=
  { wGood with flags := wGood.flags ++ [("friendbot-url", "https://friendbot.example")] }

/-- wGood with a friendbot redirect URL that fails to parse. -/
def wBadFriendbot : World :=
  { wGood with
    flags := wGood.flags ++ [("friendbot-url", "%%malformed")]
    parseURL := fun _ => none }

/-- The bound table row for per-hour-rate-limit. -/
def rateLimitOpt : ConfigOption :=
  { name := "per-hour-rate-limit", envVar := "PER_HOUR_RATE_LIMIT",
    configKey := some .rateLimit, flagDefault := .int 3600,
    customSetValue := some .setRateLimit }

/-- The bound table row for friendbot-url. -/
def friendbotOpt : ConfigOption :=
  { name := "friendbot-url", envVar := "FRIENDBOT_URL", configKey := some .friendbotURL,
    flagDefault := .str "", customSetValue := some .setURL }

/-- The bound table row for stellar-core-url. -/
def stellarCoreURLOpt : ConfigOption :=
  { name := "stellar-core-url", envVar := "STELLAR_CORE_URL",
    configKey := some .stellarCoreURL, flagDefault := .str "", required := true }

/-- The max-path-length value held by c after the setValue loop, when the loop
succeeds. -/
def resolvedMaxPath (w : World) : Option Nat :=
  match runSetValues w boundOpts {} with
  | .ok s => some s.c.maxPathLength
  | .error _ => none

/-- The max-path-length value of the assembled config, when assembly is
reached. -/
def assembledMaxPath (w : World) : Option Nat :=
  match pipelineCore w with
  | .ok cfg => some cfg.maxPathLength
  | .error _ => none

theorem requireCheck_eq_some {v : ViperState} {co : ConfigOption} {r : FatalReason}
    (h : requireCheck v co = some r) :
    co.required = true ∧ v.getString co.name = "" ∧
      r = .requiredBlank co.name co.envVar := by
  unfold requireCheck at h
  split at h
  · rename_i hcond
    exact ⟨hcond.1, hcond.2, (Option.some.inj h).symm⟩
  · cases h

theorem requireAll_eq_some {v : ViperState} :
    ∀ {l : List ConfigOption} {r : FatalReason}, requireAll v l = some r →
      ∃ co, co ∈ l ∧ requireCheck v co = some r := by
  intro l
  induction l with
  | nil => intro r h; cases h
  | cons co rest ih =>
      intro r h
      rw [requireAll] at h
      rcases hchk : requireCheck v co with _ | r0
      · rw [hchk] at h
        obtain ⟨co', hmem, hc⟩ := ih h
        exact ⟨co', List.mem_cons_of_mem _ hmem, hc⟩
      · rw [hchk] at h
        exact ⟨co, List.mem_cons_self _ _, hchk.trans h⟩

theorem requireAll_mem_isSome {v : ViperState} :
    ∀ {l : List ConfigOption} {co : ConfigOption}, co ∈ l →
      (requireCheck v co).isSome = true → ∃ r, requireAll v l = some r := by
  intro l
  induction l with
  | nil => intro co h _; cases h
  | cons c0 rest ih =>
      intro co hmem hsome
      rw [requireAll]
      rcases hchk : requireCheck v c0 with _ | r0
      · rcases List.mem_cons.mp hmem with h | h
        · subst h
          rw [hchk] at hsome
          cases hsome
        · exact ih h hsome
      · exact ⟨r0, rfl⟩

theorem applyOption_error_class {w : World} {co : ConfigOption} {s : RunState}
    {r : FatalReason} (h : applyOption w co s = .error r) :
    r.fromRequire = false ∧ r.fromGate = false := by
  simp only [applyOption] at h
  rcases hcs : co.customSetValue with _ | cs
  · simp only [hcs] at h
    rcases hck : co.configKey with _ | k <;> simp only [hck] at h <;> simp at h
  · cases cs
    · simp [hcs] at h
    · simp only [hcs] at h
      split at h
      · simp at h
      · split at h
        · cases h
          exact ⟨rfl, rfl⟩
        · cases h
          exact ⟨rfl, rfl⟩
    · simp only [hcs] at h
      split at h
      · cases h
        exact ⟨rfl, rfl⟩
      · simp at h
    · simp only [hcs] at h
      split at h
      · simp at h
      · split at h
        · simp at h
        · cases h
          exact ⟨rfl, rfl⟩
    · simp only [hcs] at h
      split at h
      · simp at h
      · simp at h
    · simp only [hcs] at h
      split at h
      · simp at h
      · simp at h

theorem runSetValues_error_class {w : World} :
    ∀ {l : List ConfigOption} {s : RunState} {r : FatalReason},
      runSetValues w l s = .error r →
      r.fromRequire = false ∧ r.fromGate = false := by
  intro l
  induction l with
  | nil => intro s r h; cases h
  | cons co rest ih =>
      intro s r h
      rw [runSetValues] at h
      rcases happ : applyOption w co s with r0 | s0
      · simp only [happ] at h
        cases h
        exact applyOption_error_class happ
      · simp only [happ] at h
        exact ih h

theorem stagePost_error_class {w : World} {s : RunState} {r : FatalReason}
    (h : stagePost w s = .error r) :
    r.fromRequire = false ∧ r.fromGate = false := by
  simp only [stagePost] at h
  split at h
  · cases h
    exact ⟨rfl, rfl⟩
  · split at h
    · rename_i r0 hv
      cases h
      unfold validateTLS at hv
      split at hv
      · cases hv
        exact ⟨rfl, rfl⟩
      · cases hv
    · split at h
      · cases h
        exact ⟨rfl, rfl⟩
      · split at h
        · cases h
          exact ⟨rfl, rfl⟩
        · split at h
          · cases h
            exact ⟨rfl, rfl⟩
          · split at h
            · simp at h
            · split at h
              · cases h
                exact ⟨rfl, rfl⟩
              · simp at h

theorem initConfig_of_stageRequire {w : World} {r : FatalReason}
    (h : stageRequire w = some r) : initConfig w = .error r := by
  unfold initConfig pipelineCore
  rw [h]

theorem initConfig_of_stageGate {w : World} {r : FatalReason}
    (hreq : stageRequire w = none) (h : stageGate w = some r) :
    initConfig w = .error r := by
  unfold initConfig pipelineCore
  rw [hreq, h]

theorem initConfig_error_sources {w : World} {r : FatalReason}
    (h : initConfig w = .error r) :
    (r.fromRequire = true → stageRequire w = some r) ∧
      (r.fromGate = true → stageGate w = some r) := by
  unfold initConfig pipelineCore at h
  rcases hreq : stageRequire w with _ | r0
  · simp only [hreq] at h
    rcases hgate : stageGate w with _ | r1
    · simp only [hgate] at h
      rcases hres : runSetValues w boundOpts {} with r2 | s
      · simp only [hres] at h
        cases h
        obtain ⟨h1, h2⟩ := runSetValues_error_class hres
        constructor
        · intro hx; rw [h1] at hx; cases hx
        · intro hx; rw [h2] at hx; cases hx
      · simp only [hres] at h
        rcases hpost : stagePost w s with r3 | cfg
        · simp only [hpost] at h
          cases h
          obtain ⟨h1, h2⟩ := stagePost_error_class hpost
          constructor
          · intro hx; rw [h1] at hx; cases hx
          · intro hx; rw [h2] at hx; cases hx
        · simp only [hpost] at h
          cases h
          exact ⟨fun hx => (nomatch hx), fun hx => (nomatch hx)⟩
    · simp only [hgate] at h
      cases h
      have hgate' := hgate
      unfold stageGate at hgate'
      split at hgate'
      · cases hgate'
        exact ⟨fun hx => (nomatch hx), fun _ => rfl⟩
      · split at hgate'
        · cases hgate'
          exact ⟨fun hx => (nomatch hx), fun _ => rfl⟩
        · cases hgate'
  · simp only [hreq] at h
    cases h
    obtain ⟨co, _, hchk⟩ := requireAll_eq_some hreq
    obtain ⟨_, _, hshape⟩ := requireCheck_eq_some hchk
    subst hshape
    exact ⟨fun _ => rfl, fun hx => (nomatch hx)⟩

/-- The bound descriptor table written out: the rows of configOpts with every
empty envVar replaced by the derived constant-case name. -/
theorem boundOpts_eq : boundOpts = [
  { name := "db-url", envVar := "DATABASE_URL", configKey := some .databaseURL,
    flagDefault := .str "", required := true },
  { name := "stellar-core-db-url", envVar := "STELLAR_CORE_DATABASE_URL",
    configKey := some .stellarCoreDatabaseURL, flagDefault := .str "", required := true },
  { name := "stellar-core-url", envVar := "STELLAR_CORE_URL", configKey := some .stellarCoreURL,
    flagDefault := .str "", required := true },
  { name := "port", envVar := "PORT", configKey := some .port, flagDefault := .int 8000 },
  { name := "max-db-connections", envVar := "MAX_DB_CONNECTIONS",
    configKey := some .maxDBConnections, flagDefault := .int 20 },
  { name := "sse-update-frequency", envVar := "SSE_UPDATE_FREQUENCY",
    configKey := some .sseUpdateFrequency, flagDefault := .int 5,
    customSetValue := some .setDuration },
  { name := "connection-timeout", envVar := "CONNECTION_TIMEOUT",
    configKey := some .connectionTimeout, flagDefault := .int 55,
    customSetValue := some .setDuration },
  { name := "per-hour-rate-limit", envVar := "PER_HOUR_RATE_LIMIT",
    configKey := some .rateLimit, flagDefault := .int 3600,
    customSetValue := some .setRateLimit },
  { name := "rate-limit-redis-key", envVar := "RATE_LIMIT_REDIS_KEY",
    configKey := some .rateLimitRedisKey, flagDefault := .str "" },
  { name := "redis-url", envVar := "REDIS_URL", configKey := some .redisURL,
    flagDefault := .str "" },
  { name := "friendbot-url", envVar := "FRIENDBOT_URL", configKey := some .friendbotURL,
    flagDefault := .str "", customSetValue := some .setURL },
  { name := "log-level", envVar := "LOG_LEVEL", configKey := some .logLevel,
    flagDefault := .str "info", customSetValue := some .setLogLevel },
  { name := "log-file", envVar := "LOG_FILE", configKey := some .logFile,
    flagDefault := .str "", customSetValue := some .setLogFile },
  { name := "max-path-length", envVar := "MAX_PATH_LENGTH", configKey := some .maxPathLength,
    flagDefault := .uint 4 },
  { name := "network-passphrase", envVar := "NETWORK_PASSPHRASE",
    configKey := some .networkPassphrase, flagDefault := .str TestNetworkPassphrase,
    required := true },
  { name := "sentry-dsn", envVar := "SENTRY_DSN", configKey := some .sentryDSN,
    flagDefault := .str "" },
  { name := "loggly-token", envVar := "LOGGLY_TOKEN", configKey := some .logglyToken,
    flagDefault := .str "" },
  { name := "loggly-tag", envVar := "LOGGLY_TAG", configKey := some .logglyTag,
    flagDefault := .str "horizon" },
  { name := "tls-cert", envVar := "TLS_CERT", configKey := some .tlsCert,
    flagDefault := .str "", customSetValue := some .incrementTLSFlag },
  { name := "tls-key", envVar := "TLS_KEY", configKey := some .tlsKey,
    flagDefault := .str "", customSetValue := some .incrementTLSFlag },
  { name := "ingest", envVar := "INGEST", configKey := some .ingest,
    flagDefault := .boolean false },
  { name := "history-retention-count", envVar := "HISTORY_RETENTION_COUNT",
    configKey := some .historyRetentionCount, flagDefault := .uint 0 },
  { name := "history-stale-threshold", envVar := "HISTORY_STALE_THRESHOLD",
    configKey := some .staleThreshold, flagDefault := .uint 0 },
  { name := "skip-cursor-update", envVar := "SKIP_CURSOR_UPDATE",
    configKey := some .skipCursorUpdate, flagDefault := .boolean false },
  { name := "enable-asset-stats", envVar := "ENABLE_ASSET_STATS",
    configKey := some .enableAssetStats, flagDefault := .boolean false }
] := by decide

/-- Under benign friendbot, log-level and log-file inputs the setValue loop
cannot fail, and the TLS counter after it counts exactly the non-empty members
of the cert/key pair. -/
theorem runSetValues_boundOpts_ok (w : World) (s : RunState) (ll : LogLevel)
    (hll : parseLogLevel ((viperOf w).getString "log-level") = some ll)
    (hfb : (viperOf w).getString "friendbot-url" = "")
    (hlf : (viperOf w).getString "log-file" = "") :
    (runSetValues w boundOpts s).isOk = true ∧
      resTLS (runSetValues w boundOpts s) = s.tlsProvided
        + (if (viperOf w).getString "tls-cert" = "" then 0 else 1)
        + (if (viperOf w).getString "tls-key" = "" then 0 else 1) := by
  rw [boundOpts_eq]
  by_cases hrl : (viperOf w).getInt "per-hour-rate-limit" = 0 <;>
    by_cases hc : (viperOf w).getString "tls-cert" = "" <;>
      by_cases hk : (viperOf w).getString "tls-key" = "" <;>
        simp [runSetValues, applyOption, setSimpleValue, resTLS, Except.isOk,
          Except.toBool, hll, hfb, hlf, hrl, hc, hk]

/-- C1: initConfig can never return normally — its final statement is an
unconditional fatal — so the caller can never proceed to serve; at a world
where every validation and the gate succeed (pipelineCore is ok), the run
still ends in the "Died here" fatal instead of producing the Config. -/
theorem initConfig_always_exits :
    (∀ w : World, (initConfig w).isOk = false)
    ∧ initConfig wGood = .error .diedHere
    ∧ (pipelineCore wGood).isOk = true := by
  refine ⟨?_, by decide, by decide⟩
  intro w
  unfold initConfig
  rcases h : pipelineCore w with r | cfg <;> simp [h, Except.isOk, Except.toBool]

/-- C2 (amended): the checks run in the order required-field validation, then
the schema gate (up before down), then the per-field setValue loop, then the
cross-field checks, and the first fatal in that order is the one reported. -/
theorem pipeline_order_amended (w : World) :
    (∀ r, stageRequire w = some r → initConfig w = .error r)
    ∧ (stageRequire w = none → w.migrationsUp ≠ [] →
        initConfig w = .error (.migrateUpNeeded w.migrationsUp.length))
    ∧ (stageRequire w = none → w.migrationsUp = [] → 0 < w.migrationsDown →
        initConfig w = .error (.migrateDownNeeded w.migrationsDown))
    ∧ (∀ r, stageRequire w = none → stageGate w = none →
        runSetValues w boundOpts {} = .error r → initConfig w = .error r) := by
  refine ⟨fun r h => initConfig_of_stageRequire h, ?_, ?_, ?_⟩
  · intro h1 h2
    refine initConfig_of_stageGate h1 ?_
    unfold stageGate
    rw [if_pos (List.length_pos.mpr h2)]
  · intro h1 h2 h3
    refine initConfig_of_stageGate h1 ?_
    unfold stageGate
    rw [if_neg (by simp [h2]), if_pos h3]
  · intro r h1 h2 h3
    unfold initConfig pipelineCore
    simp only [h1, h2, h3]

/-- C2 witness: at wOrderSwap the require loop reports the blank db-url. -/
theorem pipeline_order_amended_witness :
    stageRequire wOrderSwap = some (.requiredBlank "db-url" "DATABASE_URL")
    ∧ initConfig wOrderSwap = .error (.requiredBlank "db-url" "DATABASE_URL") :=
  ⟨by decide, (pipeline_order_amended wOrderSwap).1 _ (by decide)⟩

/-- C2 counterexample: with db-url blank and one up migration pending, the
reported fatal is the required-field one, not the gate's — the claimed
schema-gate-first order does not hold. -/
theorem pipeline_order_counterexample :
    initConfig wOrderSwap = .error (.requiredBlank "db-url" "DATABASE_URL")
    ∧ initConfig wOrderSwap ≠ .error (.migrateUpNeeded 1) := by decide

/-- C3: init() binds an environment variable only for rows with a derived
envVar; the explicitly named DATABASE_URL alias of db-url is never bound, so
setting it does not supply the option (the run still fails with "db-url is
blank"), while the derived PORT alias works and a flag beats it. -/
theorem env_alias_unbound :
    lookupStr envBindings "db-url" = none
    ∧ (initViper [] [("DATABASE_URL", "postgres://horizon")]).getString "db-url" = ""
    ∧ initConfig wEnvDB = .error (.requiredBlank "db-url" "DATABASE_URL")
    ∧ (initViper [] [("PORT", "9000")]).getInt "port" = 9000
    ∧ (initViper [("port", "7")] [("PORT", "9000")]).getInt "port" = 7 := by decide

/-- C4 (amended): the unsigned path parses the raw value with the signed parse
and then performs an unchecked conversion that reduces modulo 2^64, so a
negative raw value silently wraps to a large unsigned value instead of being
rejected; the three uint fields of the assembly use the same conversion. -/
theorem uint_cast_unchecked (v : ViperState) (co : ConfigOption) (c : HorizonConfig)
    (d : Nat) (hkind : co.flagDefault = .uint d)
    (hkey : co.configKey = some .maxPathLength) :
    (setSimpleValue v co c).maxPathLength = goUInt (v.getInt co.name)
    ∧ (∀ i : Int, (goUInt i : Int) = i % (2 : Int) ^ 64)
    ∧ (∀ i : Int, -((2 : Int) ^ 64) ≤ i → i < 0 → (goUInt i : Int) = i + (2 : Int) ^ 64)
    ∧ (∀ (vv : ViperState) (lla : LogLevel) (lf cert key : String)
        (fb : Option Url) (rl : Option RateQuota),
        (assembleConfig vv lla lf cert key fb rl).maxPathLength
          = goUInt (vv.getInt "max-path-length")) := by
  have hmod : ∀ i : Int, (goUInt i : Int) = i % (2 : Int) ^ 64 := by
    intro i
    exact Int.toNat_of_nonneg (Int.emod_nonneg i (by norm_num))
  refine ⟨?_, hmod, ?_, ?_⟩
  · simp [setSimpleValue, hkind, hkey, writeUInt]
  · intro i h1 h2
    rw [hmod i]
    have hpow : (2 : Int) ^ 64 = 18446744073709551616 := by norm_num
    rw [hpow] at h1 ⊢
    omega
  · intro vv lla lf cert key fb rl
    simp [assembleConfig]

/-- C4 witness: the max-path-length row with raw value -1 stores the wrapped
value through the unchecked conversion. -/
theorem uint_cast_unchecked_witness :
    ({ name := "max-path-length", envVar := "MAX_PATH_LENGTH",
       configKey := some ConfigKey.maxPathLength,
       flagDefault := FlagDefault.uint 4 } : ConfigOption).flagDefault = .uint 4
    ∧ (setSimpleValue (initViper [("max-path-length", "-1")] [])
        { name := "max-path-length", envVar := "MAX_PATH_LENGTH",
          configKey := some ConfigKey.maxPathLength,
          flagDefault := FlagDefault.uint 4 } {}).maxPathLength
      = goUInt ((initViper [("max-path-length", "-1")] []).getInt "max-path-length") :=
  ⟨rfl,
   (uint_cast_unchecked (initViper [("max-path-length", "-1")] [])
     { name := "max-path-length", envVar := "MAX_PATH_LENGTH",
       configKey := some ConfigKey.maxPathLength,
       flagDefault := FlagDefault.uint 4 } {} 4 rfl rfl).1⟩

/-- C4 counterexample: a raw value of -1 for max-path-length is not rejected;
it wraps to 2^64 - 1, both in c after the setValue loop and in the assembled
config — there is no range-checked cast guarding against negative values. -/
theorem uint_cast_counterexample :
    resolvedMaxPath wNegPath = some 18446744073709551615
    ∧ assembledMaxPath wNegPath = some 18446744073709551615 := by decide

/-- C5 (amended): with the remaining inputs benign, a fatal TLS pairing error
occurs exactly when exactly one of the raw tls-cert / tls-key values is
non-empty; but the fatal actually reported is the generic counter-based
"both key and cert must be configured" one — the later switch that names the
missing half is never the reported error, because the counter check runs
first. -/
theorem tls_pairing_amended (w : World) (ll : LogLevel)
    (hreq : stageRequire w = none)
    (hup : w.migrationsUp = [])
    (hdown : w.migrationsDown = 0)
    (hll : parseLogLevel ((viperOf w).getString "log-level") = some ll)
    (hfb : (viperOf w).getString "friendbot-url" = "")
    (hlf : (viperOf w).getString "log-file" = "") :
    (initConfig w = .error .tlsCounterInvalid ↔
      (((viperOf w).getString "tls-cert" ≠ "" ∧ (viperOf w).getString "tls-key" = "") ∨
       ((viperOf w).getString "tls-cert" = "" ∧ (viperOf w).getString "tls-key" ≠ "")))
    ∧ initConfig w ≠ .error .tlsKeyMissing
    ∧ initConfig w ≠ .error .tlsCertMissing := by
  obtain ⟨hok, htls⟩ := runSetValues_boundOpts_ok w {} ll hll hfb hlf
  rcases hres : runSetValues w boundOpts ({} : RunState) with r | s'
  · rw [hres] at hok
    simp [Except.isOk, Except.toBool] at hok
  · rw [hres] at htls
    have hgate : stageGate w = none := by simp [stageGate, hup, hdown]
    have hpipe : initConfig w = (match stagePost w s' with
        | .error r => .error r
        | .ok _ => .error .diedHere) := by
      unfold initConfig pipelineCore
      simp only [hreq, hgate, hres]
    rw [hpipe]
    by_cases hc : (viperOf w).getString "tls-cert" = "" <;>
      by_cases hk : (viperOf w).getString "tls-key" = "" <;>
        simp [hc, hk, resTLS] at htls <;>
          simp [stagePost, validateTLS, hll, hfb, hlf, hc, hk, htls]

/-- C5 witness: at wHalfTLS (cert provided, key absent) the run fails with the
generic counter fatal. -/
theorem tls_pairing_amended_witness :
    stageRequire wHalfTLS = none
    ∧ initConfig wHalfTLS = .error .tlsCounterInvalid :=
  ⟨by decide,
   (tls_pairing_amended wHalfTLS .info (by decide) rfl rfl (by decide) (by decide)
     (by decide)).1.mpr (by decide)⟩

/-- C5 counterexample: with only tls-cert supplied, the reported fatal is the
generic counter message, not the one naming the missing key. -/
theorem tls_pairing_counterexample :
    initConfig wHalfTLS = .error .tlsCounterInvalid
    ∧ initConfig wHalfTLS ≠ .error .tlsKeyMissing := by decide

/-- C6: the rate-limit resolver leaves the destination nil for raw value 0 and
for non-zero n stores a quota whose rate is PerHour n and whose burst is
exactly 100; the re-computation before assembly behaves identically. -/
theorem rate_limit_resolver_spec (w : World) (co : ConfigOption) (s : RunState)
    (hco : co.customSetValue = some .setRateLimit)
    (hkey : co.configKey = some .rateLimit)
    (hinit : s.c.rateLimit = none) :
    ((viperOf w).getInt co.name = 0 →
        applyOption w co s = .ok s ∧ s.c.rateLimit = none)
    ∧ (∀ n : Int, (viperOf w).getInt co.name = n → n ≠ 0 →
        ∃ s', applyOption w co s = .ok s'
          ∧ s'.c.rateLimit = some { maxRate := PerHour n, maxBurst := 100 })
    ∧ computeRateLimit 0 = none
    ∧ (∀ n : Int, n ≠ 0 →
        computeRateLimit n = some { maxRate := PerHour n, maxBurst := 100 }) := by
  refine ⟨?_, ?_, by simp [computeRateLimit], ?_⟩
  · intro h0
    refine ⟨?_, hinit⟩
    simp [applyOption, hco, h0]
  · intro n hn hnz
    refine ⟨{ s with c := writeRateQuotaKey co.configKey (some ⟨PerHour n, 100⟩) s.c }, ?_, ?_⟩
    · simp [applyOption, hco, hn, hnz]
    · simp [writeRateQuotaKey, hkey]
  · intro n hn
    simp [computeRateLimit, hn]

/-- C6 witness: the default 3600 yields a 3600-per-hour quota with burst 100
through the resolver. -/
theorem rate_limit_resolver_spec_witness :
    (viperOf wGood).getInt "per-hour-rate-limit" = 3600
    ∧ ∃ s', applyOption wGood rateLimitOpt {} = .ok s'
        ∧ s'.c.rateLimit = some { maxRate := PerHour 3600, maxBurst := 100 } :=
  ⟨by decide,
   (rate_limit_resolver_spec wGood rateLimitOpt {} rfl rfl rfl).2.1 3600
     (by decide) (by decide)⟩

/-- C7 (amended): the gate aborts citing the pending-up count whenever it is
positive; when the up count is zero it aborts citing the downgrade target
whenever the down count is positive; it lets resolution proceed exactly when
both counts are zero.  When both counts are positive the up abort wins, so the
downgrade citation is not the one shown. -/
theorem migration_gate_spec (w : World) (hreq : stageRequire w = none) :
    (w.migrationsUp ≠ [] →
        initConfig w = .error (.migrateUpNeeded w.migrationsUp.length))
    ∧ (w.migrationsUp = [] → 0 < w.migrationsDown →
        initConfig w = .error (.migrateDownNeeded w.migrationsDown))
    ∧ ((∀ k, initConfig w ≠ .error (.migrateUpNeeded k)
          ∧ initConfig w ≠ .error (.migrateDownNeeded k))
        ↔ (w.migrationsUp = [] ∧ w.migrationsDown = 0)) := by
  have hup : w.migrationsUp ≠ [] →
      initConfig w = .error (.migrateUpNeeded w.migrationsUp.length) := by
    intro h2
    refine initConfig_of_stageGate hreq ?_
    unfold stageGate
    rw [if_pos (List.length_pos.mpr h2)]
  have hdn : w.migrationsUp = [] → 0 < w.migrationsDown →
      initConfig w = .error (.migrateDownNeeded w.migrationsDown) := by
    intro h2 h3
    refine initConfig_of_stageGate hreq ?_
    unfold stageGate
    rw [if_neg (by simp [h2]), if_pos h3]
  refine ⟨hup, hdn, ?_, ?_⟩
  · intro hall
    have hupEmpty : w.migrationsUp = [] := by
      by_contra hne
      exact (hall _).1 (hup hne)
    refine ⟨hupEmpty, ?_⟩
    rcases Nat.eq_zero_or_pos w.migrationsDown with h0 | hpos
    · exact h0
    · exact absurd (hdn hupEmpty hpos) (hall _).2
  · rintro ⟨h1, h2⟩ k
    have hgate : stageGate w = none := by simp [stageGate, h1, h2]
    constructor
    · intro hx
      have hg := (initConfig_error_sources hx).2 rfl
      rw [hgate] at hg
      cases hg
    · intro hx
      have hg := (initConfig_error_sources hx).2 rfl
      rw [hgate] at hg
      cases hg

/-- C7 witness: with two pending up migrations the gate aborts citing the
count 2. -/
theorem migration_gate_spec_witness :
    stageRequire wBothPending = none
    ∧ initConfig wBothPending = .error (.migrateUpNeeded 2) :=
  ⟨by decide, (migration_gate_spec wBothPending (by decide)).1 (by decide)⟩

/-- C7 counterexample: with pending-up 2 and pending-down 3 the abort cites
the up migrations; the downgrade citation the claim promises for any positive
pending-down count is not reported. -/
theorem migration_gate_counterexample :
    initConfig wBothPending = .error (.migrateUpNeeded 2)
    ∧ initConfig wBothPending ≠ .error (.migrateDownNeeded 3) := by decide

/-- C8 (code bug): the URL resolver's empty-string and parse-failure legs
behave as claimed — an empty raw string leaves everything untouched with no
error, and a non-empty unparsable string is fatal reporting the offending
string — but the success leg never stores the parsed URL: a non-empty string
that parses successfully reaches the write through the failing interface
assertion co.configKey.(*url.URL) (the key holds a **url.URL, because
Config.FriendbotURL is the *url.URL the assembly assigns the local pointer
variable to), so the process panics instead of storing the URL. -/
theorem url_resolver_panics :
    applyOption wGood friendbotOpt {} = .ok {}
    ∧ applyOption wBadFriendbot friendbotOpt {} = .error (.badURL "%%malformed")
    ∧ applyOption wFriendbot friendbotOpt {} = .error .urlAssertPanic := by decide

/-- C9: a run fails with a required-blank fatal exactly when some required row
resolves to the empty string, and the fatal carries that row's flag name and
environment variable; rows with required = false never produce it. -/
theorem require_spec (w : World) :
    (∀ n e, initConfig w = .error (.requiredBlank n e) →
      ∃ co, co ∈ boundOpts ∧ co.required = true
        ∧ (viperOf w).getString co.name = "" ∧ n = co.name ∧ e = co.envVar)
    ∧ ((∃ co, co ∈ boundOpts ∧ co.required = true
          ∧ (viperOf w).getString co.name = "") →
      ∃ co, co ∈ boundOpts ∧ co.required = true
        ∧ (viperOf w).getString co.name = ""
        ∧ initConfig w = .error (.requiredBlank co.name co.envVar)) := by
  constructor
  · intro n e h
    have hsrc := (initConfig_error_sources h).1 rfl
    obtain ⟨co, hmem, hchk⟩ := requireAll_eq_some hsrc
    obtain ⟨hr, hb, hshape⟩ := requireCheck_eq_some hchk
    injection hshape with hn he
    exact ⟨co, hmem, hr, hb, hn, he⟩
  · rintro ⟨co, hmem, hreq, hblank⟩
    have hchk : (requireCheck (viperOf w) co).isSome = true := by
      unfold requireCheck
      rw [if_pos ⟨hreq, hblank⟩]
      rfl
    obtain ⟨r, hall⟩ := requireAll_mem_isSome hmem hchk
    obtain ⟨co', hmem', hchk'⟩ := requireAll_eq_some hall
    obtain ⟨hreq', hblank', hshape'⟩ := requireCheck_eq_some hchk'
    subst hshape'
    exact ⟨co', hmem', hreq', hblank', initConfig_of_stageRequire hall⟩

/-- C9 witness: with stellar-core-url blank and required, the run fails with a
required-blank fatal naming some required blank row. -/
theorem require_spec_witness :
    ∃ co, co ∈ boundOpts ∧ co.required = true
      ∧ (viperOf wBlankRequired).getString co.name = ""
      ∧ initConfig wBlankRequired = .error (.requiredBlank co.name co.envVar) :=
  (require_spec wBlankRequired).2 ⟨stellarCoreURLOpt, by decide, by decide, by decide⟩

/-- C10: for a thresholds array of length at least 4 the populate function
stores elements 1, 2, 3 into the low, medium and high fields (the destination
type has exactly those three fields), its result never depends on element 0,
and any array shorter than 4 elements is outside the safe precondition (the
indexing panics, modelled as none). -/
theorem populate_account_thresholds_spec (dest : AccountThresholds) (ts : List Nat)
    (h : 4 ≤ ts.length) :
    (∃ t1 t2 t3, ts[1]? = some t1 ∧ ts[2]? = some t2 ∧ ts[3]? = some t3
      ∧ PopulateAccountThresholds dest ts = some ⟨t1, t2, t3⟩)
    ∧ (∀ a b rest, PopulateAccountThresholds dest (a :: rest)
        = PopulateAccountThresholds dest (b :: rest))
    ∧ (∀ us : List Nat, us.length < 4 → PopulateAccountThresholds dest us = none) := by
  refine ⟨?_, ?_, ?_⟩
  · rcases h1 : ts[1]? with _ | t1
    · rw [List.getElem?_eq_none_iff] at h1
      omega
    · rcases h2 : ts[2]? with _ | t2
      · rw [List.getElem?_eq_none_iff] at h2
        omega
      · rcases h3 : ts[3]? with _ | t3
        · rw [List.getElem?_eq_none_iff] at h3
          omega
        · exact ⟨t1, t2, t3, rfl, rfl, rfl,
            by simp [PopulateAccountThresholds, h1, h2, h3]⟩
  · intro a b rest
    simp [PopulateAccountThresholds]
  · intro us hus
    have h3 : us[3]? = none := List.getElem?_eq_none (by omega)
    rcases ha : us[1]? with _ | t1 <;>
      rcases hb : us[2]? with _ | t2 <;>
        simp [PopulateAccountThresholds, ha, hb, h3]

/-- C10 witness: a 4-element array populates from elements 1..3; a 3-element
array is refused. -/
theorem populate_account_thresholds_witness :
    4 ≤ ([9, 1, 2, 3] : List Nat).length
    ∧ PopulateAccountThresholds ⟨0, 0, 0⟩ [7, 7, 7] = none :=
  ⟨by decide,
   (populate_account_thresholds_spec ⟨0, 0, 0⟩ [9, 1, 2, 3] (by decide)).2.2
     [7, 7, 7] (by decide)⟩

end StellarGo
